import Mathlib

/-!
Verification development for the VisorDemografico toolkit
(`indigenas_toolkit`): a shallow embedding of the dataset builder
(`dataset/build_dataset.py`), the filter/indicator/report pipeline
(`dataset/export_excel.py`) and the aggregation endpoint
(`api/main.py`), together with theorems settling the specification
claims about them.

Conventions of the embedding:
* pandas cells are modelled by `Cell` (string, integer, or NaN/missing);
  `pandas.DataFrame` columns become fields of `BuiltRow` (the table built
  from a spreadsheet) and `Row` (the canonical table consumed by the
  filter/indicator code after the CSV round trip, where values are
  strings, nullable strings and integers).
* `str(x)` on a possibly-null value renders NaN as "nan", as pandas
  `astype(str)` does.
* pandas `groupby` sorts group keys ascending (NaN last); `sort_values`
  is modelled by a stable sort (pandas' default quicksort leaves tie
  order unspecified; no theorem below depends on tie order).
* `np.log` is a transcendental function; the indicator computation is
  parametrised by an abstract `log : ℚ → ℚ` and no theorem depends on
  its values, only on whether the Shannon field is null.
* Excel I/O is abstracted: a workbook is a list of named sheets holding
  the computed data; writing to a path is recorded in `ExportResult`.
-/

namespace Visor

/-! ## Generic helpers (character lists, sorting, dedup) -/

/-- Code-point comparison of character lists, lexicographic (Python string
order restricted to the comparisons the source performs). -/
def charListLt : List Char → List Char → Bool
  | [], [] => false
  | [], _ :: _ => true
  | _ :: _, [] => false
  | a :: as, b :: bs =>
    if a.toNat < b.toNat then true
    else if b.toNat < a.toNat then false
    else charListLt as bs

def strLt (a b : String) : Bool := charListLt a.data b.data

/-- Does `hay` start with `needle`? -/
def listStartsWith : List Char → List Char → Bool
  | [], _ => true
  | _ :: _, [] => false
  | a :: as, b :: bs => a == b && listStartsWith as bs

/-- Substring containment on character lists (Python `in` on str). -/
def listContainsSub (needle : List Char) : List Char → Bool
  | [] => needle.isEmpty
  | h :: t => listStartsWith needle (h :: t) || listContainsSub needle t

def strContainsSub (needle hay : String) : Bool :=
  listContainsSub needle.data hay.data

/-- Python `str.strip()` (whitespace from both ends). -/
def trimChars (s : String) : String :=
  String.mk (((s.data.dropWhile Char.isWhitespace).reverse.dropWhile
    Char.isWhitespace).reverse)

/-- Python `sep.join(pieces)`. -/
def joinSep (sep : String) : List String → String
  | [] => ""
  | [x] => x
  | x :: y :: ys => x ++ sep ++ joinSep sep (y :: ys)

/-- Stable insertion for `sortBy`: `a` goes after every earlier element
that is not strictly greater, so equal elements keep their input order. -/
def insertSorted (lt : α → α → Bool) (a : α) : List α → List α
  | [] => [a]
  | b :: bs => if lt a b then a :: b :: bs else b :: insertSorted lt a bs

/-- Stable sort by a strict comparison (ascending w.r.t. `lt`). -/
def sortBy (lt : α → α → Bool) : List α → List α
  | [] => []
  | a :: as => insertSorted lt a (sortBy lt as)

/-- Keep the first occurrence of each element (`seen` accumulates the
elements already emitted). -/
def dedupFirstAux [DecidableEq α] (seen : List α) : List α → List α
  | [] => []
  | a :: as =>
    if a ∈ seen then dedupFirstAux seen as
    else a :: dedupFirstAux (a :: seen) as

def dedupFirst [DecidableEq α] (l : List α) : List α := dedupFirstAux [] l

/-- Keep the first list element for each key (`drop_duplicates(subset=…)`
with `keep="first"`). -/
def dedupFirstByAux (f : α → β) [DecidableEq β] (seen : List β) :
    List α → List α
  | [] => []
  | a :: as =>
    if f a ∈ seen then dedupFirstByAux f seen as
    else a :: dedupFirstByAux f (f a :: seen) as

def dedupFirstBy (f : α → β) [DecidableEq β] (l : List α) : List α :=
  dedupFirstByAux f [] l

/-- Split a string at the first `|`: the part before it and the part
after it. -/
def splitFirstBar (s : String) : String × String :=
  (String.mk (s.data.takeWhile (fun c => !(c == '|'))),
   String.mk ((s.data.dropWhile (fun c => !(c == '|'))).drop 1))

/-! ## Column resolver (`build_dataset._guess_column`) -/

/-- Normalisation used by `_guess_column`: lower-case and remove
whitespace and underscores (`re.sub(r"[\s_]+", "", c.lower())`). -/
def normalizeHeader (c : String) : String :=
  String.mk ((c.data.map Char.toLower).filter
    (fun ch => !(ch.isWhitespace || ch == '_')))

/-- A keyword matches a header when the normalised keyword occurs inside
the normalised header. -/
def kwMatches (k c : String) : Bool :=
  strContainsSub (normalizeHeader k) (normalizeHeader c)

/-- Inner loop of `_guess_column`: scan the (header, normalised header)
pairs in order, returning the first header whose normalisation contains
the normalised keyword. -/
def findCol (knorm : String) : List (String × String) → Option String
  | [] => none
  | (c, n) :: rest =>
    if strContainsSub knorm n then some c else findCol knorm rest

/-- Outer loop of `_guess_column`: keywords in priority order. -/
def guessColumnGo (ncols : List (String × String)) (d : Option String) :
    List String → Option String
  | [] => d
  | k :: ks =>
    match findCol (normalizeHeader k) ncols with
    | some c => some c
    | none => guessColumnGo ncols d ks

/-- `_guess_column(df, keywords, default)`: the header dict preserves the
column order of the frame, keywords are tried in the caller's order, and
the caller-supplied default is returned when nothing matches. -/
def guessColumn (cols : List String) (keywords : List String)
    (d : Option String) : Option String :=
  guessColumnGo (cols.map (fun c => (c, normalizeHeader c))) d keywords

/-! ## Spreadsheet model and `build_dataset` -/

/-- A spreadsheet cell: a string, an integer, or NaN/missing. -/
inductive Cell
  | s (v : String)
  | i (v : Int)
  | empty
deriving DecidableEq

/-- pandas `astype(str)` on a cell (NaN renders as "nan"). -/
def pdStrCell : Cell → String
  | .s v => v
  | .i v => toString v
  | .empty => "nan"

def allDigits (cs : List Char) : Bool := cs.all Char.isDigit

def digitsVal (cs : List Char) : Nat :=
  cs.foldl (fun acc c => acc * 10 + (c.toNat - 48)) 0

/-- A value of the float column produced by
`pd.to_numeric(errors="coerce")`, as far as the build observes it: a
finite value is kept already truncated toward zero, because its only
consumer is `astype(int)` (which truncates toward zero); infinities are
kept apart because `astype(int)` raises on them. NaN is `none` at the
`Option PdNum` level. -/
inductive PdNum
  | val (truncated : Int)
  | inf (pos : Bool)
deriving DecidableEq

/-- Integer part, toward zero, of the decimal
`sign * intDigits.fracDigits * 10 ^ exp`: the concatenated digits read
with the decimal point placed `intDigits.length + exp` positions from
the left (missing positions are zero-padded). -/
def truncDecimal (sign : Int) (intDigits fracDigits : List Char)
    (exp : Int) : Int :=
  let digits := intDigits ++ fracDigits
  let p : Int := (intDigits.length : Int) + exp
  if p ≤ 0 then 0
  else sign * (digitsVal (digits.take p.toNat) : Int)
    * ((10 : Int) ^ (p.toNat - digits.length))

/-- String parser of `pd.to_numeric(errors="coerce")`: optional
surrounding whitespace and sign, then `inf`/`infinity` (any case), or
`nan`, or a decimal mantissa `digits[.digits]` (at least one digit
overall) with an optional exponent — `e`/`E`, optional sign, nonempty
digits. Anything else coerces to NaN (`none`). -/
def parsePdNumeric (s : String) : Option PdNum :=
  let cs := ((s.data.dropWhile Char.isWhitespace).reverse.dropWhile
    Char.isWhitespace).reverse
  let signed : Int × List Char :=
    match cs with
    | '-' :: t => (-1, t)
    | '+' :: t => (1, t)
    | t => (1, t)
  let rest := signed.2
  let lower := rest.map Char.toLower
  if lower = "inf".data ∨ lower = "infinity".data then
    some (.inf (signed.1 == 1))
  else if lower = "nan".data then
    none
  else
    let mant := rest.takeWhile (fun c => !(c == 'e' || c == 'E'))
    let intDigits := mant.takeWhile (fun c => !(c == '.'))
    let fracDigits := (mant.dropWhile (fun c => !(c == '.'))).drop 1
    let mantOk := allDigits intDigits && allDigits fracDigits
      && !(intDigits.isEmpty && fracDigits.isEmpty)
    match rest.dropWhile (fun c => !(c == 'e' || c == 'E')) with
    | [] =>
      if mantOk then
        some (.val (truncDecimal signed.1 intDigits fracDigits 0))
      else none
    | _ :: expRest =>
      let esigned : Int × List Char :=
        match expRest with
        | '-' :: t => (-1, t)
        | '+' :: t => (1, t)
        | t => (1, t)
      if mantOk && allDigits esigned.2 && !esigned.2.isEmpty then
        some (.val (truncDecimal signed.1 intDigits fracDigits
          (esigned.1 * (digitsVal esigned.2 : Int))))
      else none

/-- Numeric coercion of a cell: integers pass through, strings are
parsed, NaN stays NaN (`none`). -/
def toNumericPd : Cell → Option PdNum
  | .i v => some (.val v)
  | .s v => parsePdNumeric v
  | .empty => none

/-- A population value after `.fillna(0)`: NaN becomes 0. -/
def popCellValue (c : Cell) : PdNum := (toNumericPd c).getD (.val 0)

def pdNumIsInf : PdNum → Bool
  | .val _ => false
  | .inf _ => true

/-- `astype(int)` on one already-filled value; callers must first rule
out infinities, on which `astype(int)` raises instead. -/
def pdNumTrunc : PdNum → Int
  | .val v => v
  | .inf _ => 0

/-- A sheet read with its first row as headers. -/
structure Sheet where
  headers : List String
  rows : List (List Cell)
deriving DecidableEq

/-- `dropna(how="all")`: drop rows that are entirely empty. -/
def dropEmptyRows (sh : Sheet) : Sheet :=
  ⟨sh.headers, sh.rows.filter (fun r => !(r.all (fun c => c == .empty)))⟩

/-- Cell of a row at the position of a named header (missing cells are
NaN). -/
def getCell (headers : List String) (row : List Cell) (name : String) :
    Cell :=
  row.getD (headers.indexOf name) Cell.empty

/-- Python `str.replace(r"\s*\(.*\)$", "", regex=True).strip()`: the
leftmost match of `\s*\(.*\)$` is removed, then the result is stripped.
`.` does not match a newline, so a qualifying `(` must lie after the
last newline of the body (everything before the final `)`); the
leftmost such `(` starts the removed span, and the `\s*` run before it
falls to the final strip. (The Python-`$` subtlety of also matching
just before one trailing newline is not modelled; spreadsheet cell
values do not carry trailing newlines.) -/
def limpiarMunicipio (s : String) : String :=
  if s.data.getLast? == some ')' then
    let body := s.data.dropLast
    let tail := (body.reverse.takeWhile (fun c => !(c == '\n'))).reverse
    if tail.contains '(' then
      trimChars (String.mk
        ((body.reverse.dropWhile (fun c => !(c == '\n'))).reverse
          ++ tail.takeWhile (fun c => !(c == '('))))
    else trimChars s
  else trimChars s

/-- Row of the table produced by `build_dataset` (the six final
columns). `departamento` and `codEtnia` keep their raw cell values;
`pueblo` is the catalog name cell (NaN when the join misses or there is
no catalog). -/
structure BuiltRow where
  departamento : Cell
  municipioLimpio : String
  keyMpio : String
  codEtnia : Cell
  pueblo : Cell
  poblacion2018 : Int
deriving DecidableEq

/-- The fatal errors of `build_dataset`: the `KeyError` naming the four
detected columns (`none` marks the fields that were not found), and the
`ValueError` that `astype(int)` raises when the coerced population
column contains a non-finite value ("Cannot convert non-finite values
(NA or inf) to integer"; NaN has been filled with 0 by then, so only
infinities trigger it). -/
inductive BuildError
  | schemaDetection (dept muni code pop : Option String)
  | nonFiniteCast
deriving DecidableEq

def deptKeywords : List String := ["departamento"]
def muniKeywords : List String := ["municipio"]
def codeKeywords : List String := ["pa11codetnia", "codetnia", "cod_pueblo"]
def popKeywords : List String := ["poblacion", "total", "cnt"]
def catCodeKeywords : List String := ["pa11codetnia", "codetnia", "codigo"]
def catNameKeywords : List String := ["pueblo", "nombre", "etnia"]

/-- Resolution of the four required columns on the primary sheet. -/
def resolveCols (headers : List String) :
    Option (String × String × String × String) :=
  match guessColumn headers deptKeywords none,
        guessColumn headers muniKeywords none,
        guessColumn headers codeKeywords none,
        guessColumn headers popKeywords none with
  | some a, some b, some c, some d => some (a, b, c, d)
  | _, _, _, _ => none

/-- Catalog construction (sheet "1"): best effort. `none` models an
unreadable sheet or unresolved code/name columns; otherwise the
(code, name) pairs deduplicated by code keeping the first occurrence. -/
def buildCatalog (catalogo : Option Sheet) : Option (List (Cell × Cell)) :=
  match catalogo with
  | none => none
  | some cat =>
    match guessColumn cat.headers catCodeKeywords none,
          guessColumn cat.headers catNameKeywords none with
    | some cc, some pc =>
      some (dedupFirstBy (fun e => e.1)
        (cat.rows.map (fun row =>
          (getCell cat.headers row cc, getCell cat.headers row pc))))
    | _, _ => none

/-- One canonical row from one raw row of the primary sheet. -/
def mkBuiltRow (headers : List String) (dc mc cc pc : String)
    (cat : Option (List (Cell × Cell))) (row : List Cell) : BuiltRow :=
  let dCell := getCell headers row dc
  let mCell := getCell headers row mc
  let eCell := getCell headers row cc
  let muniLimpio := limpiarMunicipio (pdStrCell mCell)
  { departamento := dCell
    municipioLimpio := muniLimpio
    keyMpio := trimChars (pdStrCell dCell) ++ "|" ++ muniLimpio
    codEtnia := eCell
    pueblo :=
      match cat with
      | none => Cell.empty
      | some entries =>
        (((entries.find? (fun e => e.1 == eCell)).map
          (fun e => e.2)).getD Cell.empty)
    poblacion2018 := pdNumTrunc (popCellValue (getCell headers row pc)) }

/-- `build_dataset`: drop all-empty rows, resolve the four required
columns (raising `schemaDetection` naming the detections otherwise),
clean municipality names, build the composite key, left-join the
best-effort catalog, and coerce the population column — raising the
`astype(int)` non-finite `ValueError` when any coerced population value
is infinite. -/
def buildDataset (baseSheet : Sheet) (catalogo : Option Sheet) :
    Except BuildError (List BuiltRow) :=
  let base := dropEmptyRows baseSheet
  match resolveCols base.headers with
  | some (dc, mc, cc, pc) =>
    if (base.rows.map (fun row => getCell base.headers row pc)).any
        (fun c => pdNumIsInf (popCellValue c)) then
      .error .nonFiniteCast
    else
      .ok (base.rows.map
        (mkBuiltRow base.headers dc mc cc pc (buildCatalog catalogo)))
  | none =>
    .error (.schemaDetection
      (guessColumn base.headers deptKeywords none)
      (guessColumn base.headers muniKeywords none)
      (guessColumn base.headers codeKeywords none)
      (guessColumn base.headers popKeywords none))

/-! ## Canonical table and filter engine (`export_excel._filter_dataset`) -/

/-- Row of the canonical municipio×pueblo table as the filter/indicator
code consumes it (after the CSV round trip): `codEtnia` and `pueblo` are
nullable (NaN when the catalog join missed). -/
structure Row where
  departamento : String
  municipioLimpio : String
  keyMpio : String
  codEtnia : Option String
  pueblo : Option String
  poblacion2018 : Int
deriving DecidableEq

/-- `astype(str)` on a nullable value (NaN renders as "nan"). -/
def pdStr : Option String → String
  | some v => v
  | none => "nan"

/-- Python `str.upper()` (character-wise upper-casing). -/
def strUpper (s : String) : String := String.mk (s.data.map Char.toUpper)

/-- `peoples` filter: the row matches when its stringified upper-cased
code OR its stringified upper-cased name is in the upper-cased filter
set. -/
def rowMatchesPueblos (ps : List String) (r : Row) : Bool :=
  (ps.map strUpper).contains (strUpper (pdStr r.codEtnia))
  || (ps.map strUpper).contains (strUpper (pdStr r.pueblo))

/-- `_filter_dataset`: each argument is optional and Python-falsy
(`None` or `[]`) means no constraint; the three filters combine with
AND; matching is case-insensitive on stringified values. -/
def filterDataset (df : List Row)
    (pueblos departamentos municipios : Option (List String)) :
    List Row :=
  df.filter (fun r =>
    (match pueblos with
     | some (p :: ps) => rowMatchesPueblos (p :: ps) r
     | _ => true)
    &&
    (match departamentos with
     | some (d :: ds) =>
       ((d :: ds).map strUpper).contains (strUpper r.departamento)
     | _ => true)
    &&
    (match municipios with
     | some (m :: ms) =>
       ((m :: ms).map strUpper).contains (strUpper r.municipioLimpio)
     | _ => true))

/-! ## Indicator engine (`export_excel._compute_indicadores_*`) -/

/-- Ascending order on nullable people names, NaN last (pandas `groupby`
key order with `dropna=False`). -/
def optStrLt : Option String → Option String → Bool
  | some x, some y => strLt x y
  | some _, none => true
  | none, _ => false

/-- `sub.groupby("Pueblo", dropna=False)["POBLACION_2018"].sum()
.sort_values(ascending=False)`: per-people population sums, keys
ascending then stably sorted by population descending. -/
def subgroupSeries (g : List Row) : List (Option String × Int) :=
  let keys := sortBy optStrLt (dedupFirst (g.map (fun r => r.pueblo)))
  let pairs := keys.map (fun p =>
    (p, ((g.filter (fun r => decide (r.pueblo = p))).map
      (fun r => r.poblacion2018)).sum))
  sortBy (fun x y => decide (y.2 < x.2)) pairs

/-- The breakdown string `"Pueblo:conteo; …"`. -/
def renderSeries (series : List (Option String × Int)) : String :=
  joinSep "; " (series.map (fun pc => pdStr pc.1 ++ ":" ++ toString pc.2))

/-- One record of the `indicadores_municipio` sheet: the keys of the
dict literal are Departamento, Municipio_limpio,
poblacion_indigena_total, num_pueblos, pueblos_y_poblacion, HHI,
"Simpson (1-HHI)" and Shannon. -/
structure MuniRecord where
  departamento : String
  municipioLimpio : String
  poblacionIndigenaTotal : Int
  numPueblos : Nat
  pueblosYPoblacion : String
  hhi : Option ℚ
  simpson : Option ℚ
  shannon : Option ℚ
deriving DecidableEq

/-- Dict keys of a per-municipality indicator record, in source order. -/
def muniRecordFields : List String :=
  ["Departamento", "Municipio_limpio", "poblacion_indigena_total",
   "num_pueblos", "pueblos_y_poblacion", "HHI", "Simpson (1-HHI)",
   "Shannon"]

/-- The indicator computation for one municipality group: total, people
sums, breakdown string, positive-population group count, and the
diversity indices (null when the shares series is empty, i.e. when the
total is not positive). -/
def muniRecordOfGroup (log : ℚ → ℚ) (dep mun : String) (sub : List Row) :
    MuniRecord :=
  let popTotal : Int := (sub.map (fun r => r.poblacion2018)).sum
  let series := subgroupSeries sub
  let shares : List ℚ :=
    if 0 < popTotal then
      series.map (fun pc => (pc.2 : ℚ) / (popTotal : ℚ))
    else []
  let hhi : Option ℚ :=
    if shares.isEmpty then none
    else some ((shares.map (fun sh => sh ^ 2)).sum)
  { departamento := dep
    municipioLimpio := mun
    poblacionIndigenaTotal := popTotal
    numPueblos := (series.filter (fun pc => decide (0 < pc.2))).length
    pueblosYPoblacion := renderSeries series
    hhi := hhi
    simpson := match hhi with | some h => some (1 - h) | none => none
    shannon :=
      if shares.isEmpty then none
      else some (-(((shares.filter (fun sh => decide (0 < sh))).map
        (fun sh => sh * log sh)).sum)) }

/-- Group keys of `df.groupby(["Departamento", "Municipio_limpio",
"KeyMpio"])`: distinct triples, ascending. -/
def muniGroupKeys (df : List Row) : List (String × String × String) :=
  sortBy (fun a b =>
      if strLt a.1 b.1 then true
      else if strLt b.1 a.1 then false
      else if strLt a.2.1 b.2.1 then true
      else if strLt b.2.1 a.2.1 then false
      else strLt a.2.2 b.2.2)
    (dedupFirst (df.map (fun r =>
      (r.departamento, r.municipioLimpio, r.keyMpio))))

def groupRows (df : List Row) (k : String × String × String) : List Row :=
  df.filter (fun r =>
    decide ((r.departamento, r.municipioLimpio, r.keyMpio) = k))

/-- `_compute_indicadores_municipio`. -/
def computeIndicadoresMunicipio (log : ℚ → ℚ) (df : List Row) :
    List MuniRecord :=
  (muniGroupKeys df).map (fun k =>
    muniRecordOfGroup log k.1 k.2.1 (groupRows df k))

/-- One record of the `indicadores_departamento` sheet: the dict literal
has exactly Departamento, poblacion_indigena_total, num_pueblos (unique
codes, `nunique` drops NaN) and num_municipios (unique keys). -/
structure DepRecord where
  departamento : String
  poblacionIndigenaTotal : Int
  numPueblos : Nat
  numMunicipios : Nat
deriving DecidableEq

/-- Dict keys of a per-department indicator record, in source order. -/
def depRecordFields : List String :=
  ["Departamento", "poblacion_indigena_total", "num_pueblos",
   "num_municipios"]

def depRecordOf (df : List Row) (dep : String) : DepRecord :=
  let sub := df.filter (fun r => decide (r.departamento = dep))
  { departamento := dep
    poblacionIndigenaTotal := (sub.map (fun r => r.poblacion2018)).sum
    numPueblos :=
      (dedupFirst (sub.filterMap (fun r => r.codEtnia))).length
    numMunicipios := (dedupFirst (sub.map (fun r => r.keyMpio))).length }

/-- `_compute_indicadores_departamento`. -/
def computeIndicadoresDepartamento (df : List Row) : List DepRecord :=
  (sortBy strLt (dedupFirst (df.map (fun r => r.departamento)))).map
    (depRecordOf df)

/-! ## Matrix builder and report assembler (`export_excel`) -/

/-- The wide municipio×pueblo pivot (`pivot_table` drops NaN people
keys; absent combinations are filled with 0; the index is reset into
regular columns). -/
structure MatrizData where
  puebloCols : List String
  filas : List ((String × String) × List Int)
deriving DecidableEq

def computeMatrizMpioPueblo (df : List Row) : MatrizData :=
  let dfp := df.filter (fun r => decide (r.pueblo ≠ none))
  let cols := sortBy strLt (dedupFirst (dfp.filterMap (fun r => r.pueblo)))
  let rowKeys := sortBy (fun a b =>
      if strLt a.1 b.1 then true
      else if strLt b.1 a.1 then false
      else strLt a.2 b.2)
    (dedupFirst (dfp.map (fun r => (r.departamento, r.municipioLimpio))))
  { puebloCols := cols
    filas := rowKeys.map (fun k =>
      (k, cols.map (fun p =>
        ((dfp.filter (fun r =>
          decide (r.departamento = k.1 ∧ r.municipioLimpio = k.2
            ∧ r.pueblo = some p))).map (fun r => r.poblacion2018)).sum))) }

/-- `_build_diccionario`: the literal variable/description pairs. -/
def diccionarioData : List (String × String) :=
  [("Departamento", "Nombre del departamento"),
   ("Municipio_limpio", "Nombre del municipio sin sufijo del departamento"),
   ("KeyMpio", "Clave compuesta Departamento|Municipio"),
   ("PA11_COD_ETNIA",
    "Código del pueblo indígena según el microdato CNPV‑2018"),
   ("Pueblo", "Nombre del pueblo indígena"),
   ("POBLACION_2018",
    "Población censada en 2018 que pertenece a ese pueblo en ese municipio"),
   ("poblacion_indigena_total",
    "Población indígena total en el municipio o departamento"),
   ("num_pueblos", "Número de pueblos diferentes presentes"),
   ("pueblos_y_poblacion",
    "Cadena con cada pueblo y su población en el municipio"),
   ("HHI",
    "Índice de Herfindahl–Hirschman de concentración por pueblos (0=diverso, 1=un solo pueblo)"),
   ("Simpson (1-HHI)", "Índice de diversidad de Simpson (1 - HHI)"),
   ("Shannon", "Índice de diversidad de Shannon (entropy)"),
   ("num_municipios",
    "Número de municipios con presencia indígena en el departamento")]

/-- Contents of one sheet of the exported workbook. -/
inductive SheetData
  | base (rows : List Row)
  | muniInd (recs : List MuniRecord)
  | depInd (recs : List DepRecord)
  | matriz (m : MatrizData)
  | dicc (entries : List (String × String))
deriving DecidableEq

/-- The workbook `export_excel` writes: five named sheets in fixed
order. -/
def exportWorkbook (log : ℚ → ℚ) (df : List Row)
    (pueblos departamentos municipios : Option (List String)) :
    List (String × SheetData) :=
  let dfFilt := filterDataset df pueblos departamentos municipios
  [("base_municipal_pueblo", .base dfFilt),
   ("indicadores_municipio",
    .muniInd (computeIndicadoresMunicipio log dfFilt)),
   ("indicadores_departamento",
    .depInd (computeIndicadoresDepartamento dfFilt)),
   ("matriz_mpio_x_pueblo", .matriz (computeMatrizMpioPueblo dfFilt)),
   ("diccionario", .dicc diccionarioData)]

/-- Result of `export_excel`: the bytes returned to the caller
(modelled by the workbook) and, when an output path was supplied, the
file written (same bytes). -/
structure ExportResult where
  returned : List (String × SheetData)
  written : Option (String × List (String × SheetData))
deriving DecidableEq

/-- `export_excel(dataset, filters…, output_path)` on an
already-loaded dataset: builds the workbook in memory, writes it to
`output_path` when one is given, and returns the generated bytes in
both modes. -/
def exportExcel (log : ℚ → ℚ) (df : List Row)
    (pueblos departamentos municipios : Option (List String))
    (outputPath : Option String) : ExportResult :=
  let wb := exportWorkbook log df pueblos departamentos municipios
  { returned := wb
    written := outputPath.map (fun path => (path, wb)) }

/-! ## Aggregation endpoint (`api/main.py:aggregate`) -/

/-- How a request ends abnormally: the explicit HTTP 404
(`HTTPException`) for an empty selection, or an uncaught Python
`NameError` on an unbound name. -/
inductive ApiError
  | notFound (detail : String)
  | nameError (name : String)
deriving DecidableEq

/-- The JSON body of a successful `/aggregate` response. -/
structure AggResult where
  poblacionIndigenaTotal : Int
  numPueblos : Nat
  hhi : Option ℚ
  simpson : Option ℚ
  shannon : Option ℚ
deriving DecidableEq

/-- `df_filt.groupby("Pueblo", dropna=False)["POBLACION_2018"].sum()`:
per-people sums over the whole filtered table, keys ascending, NaN
last (no descending sort here, unlike the municipality computation). -/
def globalPuebloSeries (df : List Row) : List (Option String × Int) :=
  (sortBy optStrLt (dedupFirst (df.map (fun r => r.pueblo)))).map
    (fun p => (p, ((df.filter (fun r => decide (r.pueblo = p))).map
      (fun r => r.poblacion2018)).sum))

/-- `aggregate`: 404 when the filtered selection is empty; otherwise
total population, `nunique` of the code column, and the diversity
indices. `main.py` computes HHI and Simpson, then evaluates the Shannon
expression, which references `np.log` — and `main.py` never imports
numpy, so that expression raises `NameError("np")` whenever the shares
series is nonempty (i.e. whenever the total population is positive). -/
def aggregate (df : List Row)
    (pueblos departamentos municipios : Option (List String)) :
    Except ApiError AggResult :=
  let dfFilt := filterDataset df pueblos departamentos municipios
  if dfFilt.isEmpty then
    .error (.notFound "La selección no contiene registros")
  else
    let totalPop : Int := (dfFilt.map (fun r => r.poblacion2018)).sum
    let numPueblos : Nat :=
      (dedupFirst (dfFilt.filterMap (fun r => r.codEtnia))).length
    let series := globalPuebloSeries dfFilt
    let shares : List ℚ :=
      if 0 < totalPop then
        series.map (fun pc => (pc.2 : ℚ) / (totalPop : ℚ))
      else []
    if shares.isEmpty then
      .ok { poblacionIndigenaTotal := totalPop
            numPueblos := numPueblos
            hhi := none
            simpson := none
            shannon := none }
    else .error (.nameError "np")

/-! ## Helper lemmas -/

theorem insertSorted_perm (lt : α → α → Bool) (a : α) (l : List α) :
    List.Perm (insertSorted lt a l) (a :: l) := by
  induction l with
  | nil => simp [insertSorted]
  | cons b bs ih =>
    simp only [insertSorted]
    split
    · exact List.Perm.refl _
    · exact (List.Perm.cons b ih).trans (List.Perm.swap a b bs)

theorem sortBy_perm (lt : α → α → Bool) (l : List α) :
    List.Perm (sortBy lt l) l := by
  induction l with
  | nil => simp [sortBy]
  | cons a as ih =>
    exact (insertSorted_perm lt a (sortBy lt as)).trans (List.Perm.cons a ih)

theorem mem_sortBy (lt : α → α → Bool) (l : List α) (x : α) :
    x ∈ sortBy lt l ↔ x ∈ l :=
  (sortBy_perm lt l).mem_iff

theorem mem_dedupFirstAux [DecidableEq α] (x : α) (l : List α) :
    ∀ seen, x ∈ dedupFirstAux seen l ↔ (x ∈ l ∧ x ∉ seen) := by
  induction l with
  | nil => intro seen; simp [dedupFirstAux]
  | cons a as ih =>
    intro seen
    by_cases h : a ∈ seen
    · rw [dedupFirstAux, if_pos h, ih seen]
      by_cases hxa : x = a
      · subst hxa; simp [h]
      · simp [hxa]
    · rw [dedupFirstAux, if_neg h]
      simp only [List.mem_cons, ih (a :: seen)]
      by_cases hxa : x = a
      · subst hxa; simp [h]
      · simp [hxa]

theorem mem_dedupFirst [DecidableEq α] (x : α) (l : List α) :
    x ∈ dedupFirst l ↔ x ∈ l := by
  rw [dedupFirst, mem_dedupFirstAux]; simp

theorem nodup_dedupFirstAux [DecidableEq α] (l : List α) :
    ∀ seen, (dedupFirstAux seen l).Nodup := by
  induction l with
  | nil => intro seen; simp [dedupFirstAux]
  | cons a as ih =>
    intro seen
    by_cases h : a ∈ seen
    · rw [dedupFirstAux, if_pos h]; exact ih seen
    · rw [dedupFirstAux, if_neg h]
      refine List.nodup_cons.mpr ⟨?_, ih (a :: seen)⟩
      intro hmem
      exact ((mem_dedupFirstAux a as (a :: seen)).mp hmem).2
        (List.mem_cons_self a seen)

theorem nodup_dedupFirst [DecidableEq α] (l : List α) :
    (dedupFirst l).Nodup :=
  nodup_dedupFirstAux l []

theorem countP_eq_of_nodup [DecidableEq α] (l : List α) (hl : l.Nodup)
    (a : α) :
    l.countP (fun x => decide (x = a)) = if a ∈ l then 1 else 0 := by
  induction l with
  | nil => simp
  | cons b bs ih =>
    have hb := List.nodup_cons.mp hl
    rw [List.countP_cons, ih hb.2]
    by_cases hba : b = a
    · subst hba
      simp [hb.1]
    · simp only [List.mem_cons]
      have : ¬(a = b) := fun hab => hba hab.symm
      simp [hba, this]

theorem string_ne_empty_of_length_pos (s : String) (h : 0 < s.length) :
    s ≠ "" := by
  intro he
  rw [he] at h
  simp at h

theorem colon_piece_length_pos (a b : String) :
    0 < (a ++ ":" ++ b).length := by
  rw [String.length_append, String.length_append]
  have h1 : (":" : String).length = 1 := rfl
  omega

theorem joinSep_length_ge (sep : String) (x : String) (xs : List String) :
    x.length ≤ (joinSep sep (x :: xs)).length := by
  cases xs with
  | nil => simp [joinSep]
  | cons y ys =>
    simp only [joinSep]
    rw [String.length_append, String.length_append]
    omega

theorem renderSeries_ne_empty (series : List (Option String × Int))
    (h : series ≠ []) : renderSeries series ≠ "" := by
  cases series with
  | nil => exact absurd rfl h
  | cons pc rest =>
    rw [renderSeries, List.map_cons]
    apply string_ne_empty_of_length_pos
    have h1 := colon_piece_length_pos (pdStr pc.1) (toString pc.2)
    have h2 := joinSep_length_ge "; " (pdStr pc.1 ++ ":" ++ toString pc.2)
      (rest.map (fun q => pdStr q.1 ++ ":" ++ toString q.2))
    omega

theorem take_drop_bar (as bs : List Char) (h : '|' ∉ as) :
    (as ++ '|' :: bs).takeWhile (fun c => !(c == '|')) = as
    ∧ (as ++ '|' :: bs).dropWhile (fun c => !(c == '|')) = '|' :: bs := by
  induction as with
  | nil => constructor <;> simp [List.takeWhile, List.dropWhile]
  | cons a as ih =>
    have ha : (a == '|') = false := by
      have : ¬(a = '|') := fun hx => h (hx ▸ List.mem_cons_self a as)
      simp [this]
    have hrec := ih (fun hx => h (List.mem_cons_of_mem a hx))
    constructor
    · rw [List.cons_append, List.takeWhile_cons]
      simp [ha, hrec.1]
    · rw [List.cons_append, List.dropWhile_cons]
      simp [ha, hrec.2]

theorem splitFirstBar_append (a b : String) (h : '|' ∉ a.data) :
    splitFirstBar (a ++ "|" ++ b) = (a, b) := by
  have hbar : ("|" : String).data = ['|'] := rfl
  have hd : (a ++ "|" ++ b).data = a.data ++ '|' :: b.data := by
    rw [String.data_append, String.data_append, hbar]
    simp [List.append_assoc]
  obtain ⟨h1, h2⟩ := take_drop_bar a.data b.data h
  rw [splitFirstBar, hd, h1, h2]
  rfl

theorem findCol_eq_none (kn : String) (cols : List String) :
    findCol kn (cols.map (fun c => (c, normalizeHeader c))) = none
    ↔ ∀ c ∈ cols, strContainsSub kn (normalizeHeader c) = false := by
  induction cols with
  | nil => simp [findCol]
  | cons a as ih =>
    simp only [List.map_cons, findCol]
    split
    · rename_i hmatch
      constructor
      · intro h; simp at h
      · intro hall
        exact absurd (hall a (List.mem_cons_self a as)) (by simp [hmatch])
    · rename_i hmatch
      rw [ih]
      constructor
      · intro hall c hc
        rcases List.mem_cons.mp hc with rfl | hc
        · simpa using hmatch
        · exact hall c hc
      · intro hall c hc
        exact hall c (List.mem_cons_of_mem a hc)

theorem findCol_eq_some (kn : String) (cols : List String) (c : String)
    (h : findCol kn (cols.map (fun x => (x, normalizeHeader x)))
      = some c) :
    ∃ pre post, cols = pre ++ c :: post
      ∧ strContainsSub kn (normalizeHeader c) = true
      ∧ ∀ x ∈ pre, strContainsSub kn (normalizeHeader x) = false := by
  induction cols with
  | nil => simp [findCol] at h
  | cons a as ih =>
    simp only [List.map_cons, findCol] at h
    split at h
    · rename_i hmatch
      injection h with h
      subst h
      exact ⟨[], as, rfl, hmatch, by simp⟩
    · rename_i hmatch
      obtain ⟨pre, post, heq, hcm, hpre⟩ := ih h
      refine ⟨a :: pre, post, by rw [heq]; rfl, hcm, ?_⟩
      intro x hx
      rcases List.mem_cons.mp hx with rfl | hx
      · simpa using hmatch
      · exact hpre x hx

theorem resolveCols_eq_none_iff (hs : List String) :
    resolveCols hs = none ↔
      (guessColumn hs deptKeywords none = none
       ∨ guessColumn hs muniKeywords none = none
       ∨ guessColumn hs codeKeywords none = none
       ∨ guessColumn hs popKeywords none = none) := by
  cases h1 : guessColumn hs deptKeywords none <;>
  cases h2 : guessColumn hs muniKeywords none <;>
  cases h3 : guessColumn hs codeKeywords none <;>
  cases h4 : guessColumn hs popKeywords none <;>
    simp [resolveCols, h1, h2, h3, h4]

theorem buildDataset_ok (base : Sheet) (cat : Option Sheet)
    (rows : List BuiltRow) (h : buildDataset base cat = Except.ok rows) :
    ∃ dc mc cc pc,
      resolveCols (dropEmptyRows base).headers = some (dc, mc, cc, pc)
      ∧ ((dropEmptyRows base).rows.map (fun row =>
          getCell (dropEmptyRows base).headers row pc)).any
          (fun c => pdNumIsInf (popCellValue c)) = false
      ∧ rows = (dropEmptyRows base).rows.map
          (mkBuiltRow (dropEmptyRows base).headers dc mc cc pc
            (buildCatalog cat)) := by
  unfold buildDataset at h
  dsimp only at h
  split at h
  · rename_i dc mc cc pc heq
    split at h
    · exact absurd h (by simp)
    · rename_i hinf
      injection h with h
      exact ⟨dc, mc, cc, pc, heq, by simpa using hinf, h.symm⟩
  · exact absurd h (by simp)

theorem resolveCols_eq_some (hs : List String) (a b c d : String)
    (h : resolveCols hs = some (a, b, c, d)) :
    guessColumn hs deptKeywords none = some a
    ∧ guessColumn hs muniKeywords none = some b
    ∧ guessColumn hs codeKeywords none = some c
    ∧ guessColumn hs popKeywords none = some d := by
  cases h1 : guessColumn hs deptKeywords none <;>
  cases h2 : guessColumn hs muniKeywords none <;>
  cases h3 : guessColumn hs codeKeywords none <;>
  cases h4 : guessColumn hs popKeywords none <;>
    (unfold resolveCols at h; rw [h1, h2, h3, h4] at h; simp at h)
  obtain ⟨ha, hb, hc, hd⟩ := h
  subst ha; subst hb; subst hc; subst hd
  exact ⟨rfl, rfl, rfl, rfl⟩

theorem groupRows_ne_nil (df : List Row) (k : String × String × String)
    (hk : k ∈ muniGroupKeys df) : groupRows df k ≠ [] := by
  rw [muniGroupKeys, mem_sortBy, mem_dedupFirst] at hk
  obtain ⟨r, hr, hrk⟩ := List.mem_map.mp hk
  have hmem : r ∈ groupRows df k := by
    rw [groupRows, List.mem_filter]
    exact ⟨hr, by simp [hrk]⟩
  exact List.ne_nil_of_mem hmem

/-! ## Claim C7 — column resolver contract -/

/-- C7: for every list of available header names and every ordered list
of candidate keyword patterns, `_guess_column` never raises (the
embedding is a total function): either no keyword matches any header and
the caller-supplied default is returned, or the result is the first
header (in original header order) matching the first keyword (in
caller-supplied priority order) that matches any header, where a
keyword matches a header when its normalised form (lower-cased,
whitespace/underscore-stripped) occurs inside the header's normalised
form. -/
theorem C7_guess_column_contract (cols kws : List String)
    (d : Option String) :
    (guessColumn cols kws d = d
      ∧ ∀ k ∈ kws, ∀ c ∈ cols, kwMatches k c = false)
    ∨ (∃ k c kpre kpost cpre cpost,
        guessColumn cols kws d = some c
        ∧ kws = kpre ++ k :: kpost
        ∧ cols = cpre ++ c :: cpost
        ∧ kwMatches k c = true
        ∧ (∀ x ∈ kpre, ∀ y ∈ cols, kwMatches x y = false)
        ∧ (∀ y ∈ cpre, kwMatches k y = false)) := by
  induction kws with
  | nil => exact Or.inl ⟨rfl, by simp⟩
  | cons k ks ih =>
    cases hf : findCol (normalizeHeader k)
        (cols.map (fun c => (c, normalizeHeader c))) with
    | some c =>
      obtain ⟨cpre, cpost, hcols, hm, hpre⟩ := findCol_eq_some _ _ _ hf
      refine Or.inr ⟨k, c, [], ks, cpre, cpost, ?_, rfl, hcols, hm,
        by simp, hpre⟩
      rw [guessColumn]
      simp only [guessColumnGo, hf]
    | none =>
      have hnone := (findCol_eq_none _ _).mp hf
      have hstep : guessColumn cols (k :: ks) d = guessColumn cols ks d := by
        rw [guessColumn, guessColumn]
        simp only [guessColumnGo, hf]
      rcases ih with ⟨hval, hall⟩ |
        ⟨k2, c, kpre, kpost, cpre, cpost, hval, hkeq, hcols, hm, hkpre,
          hcpre⟩
      · refine Or.inl ⟨hstep.trans hval, ?_⟩
        intro x hx y hy
        rcases List.mem_cons.mp hx with rfl | hx
        · exact hnone y hy
        · exact hall x hx y hy
      · refine Or.inr ⟨k2, c, k :: kpre, kpost, cpre, cpost,
          hstep.trans hval, by rw [hkeq]; rfl, hcols, hm, ?_, hcpre⟩
        intro x hx y hy
        rcases List.mem_cons.mp hx with rfl | hx
        · exact hnone y hy
        · exact hkpre x hx y hy

/-! ## Claim C8 — schema detection failure blocks the build -/

/-- C8: whenever any of the four required columns (department,
municipality, people code, population) cannot be resolved on the
primary sheet, `build_dataset` raises the schema-detection error that
carries the four detection results (so the `none` entries name exactly
the fields that were not found), and no table is produced. -/
theorem C8_schema_error (base : Sheet) (cat : Option Sheet)
    (h : guessColumn (dropEmptyRows base).headers deptKeywords none = none
       ∨ guessColumn (dropEmptyRows base).headers muniKeywords none = none
       ∨ guessColumn (dropEmptyRows base).headers codeKeywords none = none
       ∨ guessColumn (dropEmptyRows base).headers popKeywords none
          = none) :
    buildDataset base cat = Except.error (BuildError.schemaDetection
      (guessColumn (dropEmptyRows base).headers deptKeywords none)
      (guessColumn (dropEmptyRows base).headers muniKeywords none)
      (guessColumn (dropEmptyRows base).headers codeKeywords none)
      (guessColumn (dropEmptyRows base).headers popKeywords none)) := by
  have hn := (resolveCols_eq_none_iff (dropEmptyRows base).headers).mpr h
  unfold buildDataset
  dsimp only
  rw [hn]

/-- Primary sheet whose population column is missing. -/
def baseC8 : Sheet :=
  ⟨["DEPARTAMENTO", "MUNICIPIO", "PA11_COD_ETNIA"],
   [[.s "META", .s "Puerto Lopez (META)", .i 570]]⟩

/-- C8 witness: on a sheet without a population column the build fails
with the error naming the population field as not found. -/
theorem C8_schema_error_witness :
    buildDataset baseC8 none = Except.error (BuildError.schemaDetection
      (some "DEPARTAMENTO") (some "MUNICIPIO") (some "PA11_COD_ETNIA")
      none) := by
  have h := C8_schema_error baseC8 none (Or.inr (Or.inr (Or.inr (by rfl))))
  exact h.trans (by rfl)

/-! ## Claim C9 — report assembly -/

/-- C9: for every filtered row set the assembled report holds exactly
the five named sections in the fixed order (filtered base rows,
municipality indicators, department indicators, people×municipality
matrix, static data dictionary), the names do not depend on any input,
and when an output path is given the same workbook is both written
there and returned, identical to the in-memory mode. -/
theorem C9_report_assembly (log : ℚ → ℚ) (df : List Row)
    (pueblos departamentos municipios : Option (List String))
    (path : String) :
    (exportExcel log df pueblos departamentos municipios
        none).returned.map Prod.fst
      = ["base_municipal_pueblo", "indicadores_municipio",
         "indicadores_departamento", "matriz_mpio_x_pueblo",
         "diccionario"]
    ∧ (exportExcel log df pueblos departamentos municipios
        (some path)).returned.map Prod.fst
      = ["base_municipal_pueblo", "indicadores_municipio",
         "indicadores_departamento", "matriz_mpio_x_pueblo",
         "diccionario"]
    ∧ (exportExcel log df pueblos departamentos municipios
        (some path)).written
      = some (path, (exportExcel log df pueblos departamentos municipios
          none).returned)
    ∧ (exportExcel log df pueblos departamentos municipios
        (some path)).returned
      = (exportExcel log df pueblos departamentos municipios
          none).returned
    ∧ (exportExcel log df pueblos departamentos municipios none).written
      = none :=
  ⟨rfl, rfl, rfl, rfl, rfl⟩

/-! ## Claim C2 — the aggregate endpoint -/

/-- Selection with positive population on which `aggregate` must return
the indicator body. -/
def dfC2 : List Row :=
  [⟨"META", "Puerto Lopez", "META|Puerto Lopez", some "570",
    some "Sikuani", 100⟩]

/-- Selection whose rows all carry zero population. -/
def dfC2zero : List Row :=
  [⟨"META", "Puerto Lopez", "META|Puerto Lopez", some "570",
    some "Sikuani", 0⟩]

/-- C2: `main.py` never imports numpy but line 107 evaluates `np.log`,
so `aggregate` raises `NameError` (an HTTP 500 server fault, not the
contracted indicator body) on every non-empty selection with positive
total population. The empty-selection 404 and the non-empty
zero-population success do behave as claimed. -/
theorem C2_aggregate_name_error :
    aggregate dfC2 none none none
      = Except.error (ApiError.nameError "np")
    ∧ aggregate dfC2 none (some ["VICHADA"]) none
      = Except.error (ApiError.notFound
          "La selección no contiene registros")
    ∧ aggregate dfC2zero none none none
      = Except.ok ⟨0, 1, none, none, none⟩ :=
  ⟨rfl, rfl, rfl⟩

/-! ## Claim C1 — department vs. municipality indicator records -/

/-- Table with two municipalities in one department. -/
def dfC1 : List Row :=
  [⟨"META", "A", "META|A", some "570", some "Sikuani", 3⟩,
   ⟨"META", "B", "META|B", some "571", some "Piapoco", 4⟩]

/-- C1 counterexample: the per-municipality record dict carries the
breakdown string and the HHI/Simpson/Shannon indices, but the
per-department record dict does not — on a concrete table the computed
department record holds only the department name, the total population,
the distinct-code count and the distinct-municipality count. -/
theorem C1_counterexample :
    ("HHI" ∈ muniRecordFields ∧ "Simpson (1-HHI)" ∈ muniRecordFields
      ∧ "Shannon" ∈ muniRecordFields
      ∧ "pueblos_y_poblacion" ∈ muniRecordFields)
    ∧ ("HHI" ∉ depRecordFields ∧ "Simpson (1-HHI)" ∉ depRecordFields
      ∧ "Shannon" ∉ depRecordFields
      ∧ "pueblos_y_poblacion" ∉ depRecordFields)
    ∧ computeIndicadoresDepartamento dfC1 = [⟨"META", 7, 2, 2⟩] := by
  refine ⟨by decide, by decide, rfl⟩

/-- C1 amended: each per-department record reports the department's
total population, the count of distinct people codes present (`nunique`
drops nulls), and the count of distinct municipality keys present; it
does not recompute the diversity indices or the breakdown string (see
the counterexample). -/
theorem C1_department_record_contents (df : List Row) (rec : DepRecord)
    (h : rec ∈ computeIndicadoresDepartamento df) :
    rec.poblacionIndigenaTotal
      = ((df.filter (fun r =>
          decide (r.departamento = rec.departamento))).map
            (fun r => r.poblacion2018)).sum
    ∧ (∃ keys : List String, keys.Nodup
        ∧ (∀ k, k ∈ keys ↔ ∃ r ∈ df,
            r.departamento = rec.departamento ∧ r.keyMpio = k)
        ∧ rec.numMunicipios = keys.length)
    ∧ (∃ codes : List String, codes.Nodup
        ∧ (∀ c, c ∈ codes ↔ ∃ r ∈ df,
            r.departamento = rec.departamento ∧ r.codEtnia = some c)
        ∧ rec.numPueblos = codes.length) := by
  rw [computeIndicadoresDepartamento] at h
  obtain ⟨dep, hdep, hrec⟩ := List.mem_map.mp h
  subst hrec
  refine ⟨rfl, ?_, ?_⟩
  · have hkeys := nodup_dedupFirst ((df.filter (fun r =>
      decide (r.departamento = dep))).map (fun r => r.keyMpio))
    refine ⟨_, hkeys, ?_, rfl⟩
    intro k
    rw [mem_dedupFirst, List.mem_map]
    constructor
    · rintro ⟨r, hr, rfl⟩
      have hm := List.mem_filter.mp hr
      exact ⟨r, hm.1, by simpa using hm.2, rfl⟩
    · rintro ⟨r, hr, hd2, rfl⟩
      exact ⟨r, List.mem_filter.mpr ⟨hr, by simpa using hd2⟩, rfl⟩
  · have hcodes := nodup_dedupFirst ((df.filter (fun r =>
      decide (r.departamento = dep))).filterMap (fun r => r.codEtnia))
    refine ⟨_, hcodes, ?_, rfl⟩
    intro c
    rw [mem_dedupFirst, List.mem_filterMap]
    constructor
    · rintro ⟨r, hr, hc⟩
      have hm := List.mem_filter.mp hr
      exact ⟨r, hm.1, by simpa using hm.2, hc⟩
    · rintro ⟨r, hr, hd2, hc⟩
      exact ⟨r, List.mem_filter.mpr ⟨hr, by simpa using hd2⟩, hc⟩

/-- Department table for the C1 witness (one null-code row). -/
def dfC1w : List Row :=
  [⟨"CAUCA", "X", "CAUCA|X", some "100", some "Nasa", 5⟩,
   ⟨"CAUCA", "Y", "CAUCA|Y", none, none, 2⟩]

/-- The department record computed from `dfC1w`. -/
def recC1w : DepRecord := ⟨"CAUCA", 7, 1, 2⟩

/-- C1 witness: the amended theorem applied to a concrete table. -/
theorem C1_department_record_contents_witness :
    recC1w.poblacionIndigenaTotal
      = ((dfC1w.filter (fun r =>
          decide (r.departamento = recC1w.departamento))).map
            (fun r => r.poblacion2018)).sum
    ∧ (∃ keys : List String, keys.Nodup
        ∧ (∀ k, k ∈ keys ↔ ∃ r ∈ dfC1w,
            r.departamento = recC1w.departamento ∧ r.keyMpio = k)
        ∧ recC1w.numMunicipios = keys.length)
    ∧ (∃ codes : List String, codes.Nodup
        ∧ (∀ c, c ∈ codes ↔ ∃ r ∈ dfC1w,
            r.departamento = recC1w.departamento ∧ r.codEtnia = some c)
        ∧ recC1w.numPueblos = codes.length) :=
  C1_department_record_contents dfC1w recC1w (by decide)

/-! ## Claim C3 — zero-total aggregation groups -/

theorem sortBy_length (lt : α → α → Bool) (l : List α) :
    (sortBy lt l).length = l.length :=
  (sortBy_perm lt l).length_eq

theorem subgroupSeries_length (g : List Row) :
    (subgroupSeries g).length
      = (dedupFirst (g.map (fun r => r.pueblo))).length := by
  rw [subgroupSeries]
  rw [sortBy_length, List.length_map, sortBy_length]

theorem subgroupSeries_ne_nil (g : List Row) (hg : g ≠ []) :
    subgroupSeries g ≠ [] := by
  intro hnil
  have h0 : (subgroupSeries g).length = 0 := by rw [hnil]; rfl
  rw [subgroupSeries_length] at h0
  obtain ⟨a, ha⟩ := List.exists_mem_of_ne_nil g hg
  have hmem : a.pueblo ∈ dedupFirst (g.map (fun r => r.pueblo)) :=
    (mem_dedupFirst _ _).mpr (List.mem_map_of_mem _ ha)
  have hpos := List.length_pos.mpr (List.ne_nil_of_mem hmem)
  omega

/-- All three indices of a group whose shares series is empty. -/
theorem muniRecordOfGroup_zero (log : ℚ → ℚ) (dep mun : String)
    (sub : List Row)
    (h0 : ((sub.map (fun r => r.poblacion2018)).sum : Int) = 0) :
    (muniRecordOfGroup log dep mun sub).hhi = none
    ∧ (muniRecordOfGroup log dep mun sub).simpson = none
    ∧ (muniRecordOfGroup log dep mun sub).shannon = none := by
  simp [muniRecordOfGroup, h0]

/-- One-row table whose single municipality group has total population
zero. -/
def dfC3 : List Row :=
  [⟨"META", "Puerto Lopez", "META|Puerto Lopez", some "570",
    some "Sikuani", 0⟩]

/-- C3 counterexample: on a zero-total municipality group the three
indices are null as claimed, but the breakdown string is NOT empty — it
lists the sub-group with its zero count ("Sikuani:0"). -/
theorem C3_counterexample :
    computeIndicadoresMunicipio (fun q => q) dfC3
      = [⟨"META", "Puerto Lopez", 0, 0, "Sikuani:0", none, none, none⟩]
    ∧ ("Sikuani:0" : String) ≠ "" :=
  ⟨rfl, by decide⟩

/-- C3 amended: for every municipality group whose summed population is
zero, HHI, Simpson and Shannon are all null (no division by zero is
attempted), and the breakdown string — far from being empty — still
lists every sub-group with its zero count, so it is nonempty. -/
theorem C3_zero_total_group (log : ℚ → ℚ) (df : List Row)
    (rec : MuniRecord)
    (h : rec ∈ computeIndicadoresMunicipio log df)
    (h0 : rec.poblacionIndigenaTotal = 0) :
    rec.hhi = none ∧ rec.simpson = none ∧ rec.shannon = none
    ∧ rec.pueblosYPoblacion ≠ "" := by
  rw [computeIndicadoresMunicipio] at h
  obtain ⟨k, hk, hrec⟩ := List.mem_map.mp h
  subst hrec
  have hT : ((groupRows df k).map (fun r => r.poblacion2018)).sum
      = (0 : Int) := h0
  obtain ⟨hh, hs, hsh⟩ :=
    muniRecordOfGroup_zero log k.1 k.2.1 (groupRows df k) hT
  refine ⟨hh, hs, hsh, ?_⟩
  have hne :=
    subgroupSeries_ne_nil (groupRows df k) (groupRows_ne_nil df k hk)
  exact renderSeries_ne_empty _ hne

/-- Zero-population table for the C3 witness. -/
def dfC3w : List Row :=
  [⟨"CAUCA", "Toribio", "CAUCA|Toribio", some "100", some "Nasa", 0⟩]

/-- The municipality record computed from `dfC3w`. -/
def recC3w : MuniRecord :=
  ⟨"CAUCA", "Toribio", 0, 0, "Nasa:0", none, none, none⟩

/-- C3 witness: the amended theorem applied to a concrete zero-total
group. -/
theorem C3_zero_total_group_witness :
    recC3w.hhi = none ∧ recC3w.simpson = none ∧ recC3w.shannon = none
    ∧ recC3w.pueblosYPoblacion ≠ "" :=
  C3_zero_total_group (fun q => q) dfC3w recC3w (by decide) (by decide)

/-! ## Claim C4 — filtering by people code vs. people name -/

theorem contains_singleton (x y : String) :
    ([y].contains x) = (x == y) := by
  simp [List.contains]
  rw [Bool.eq_iff_iff]
  simp

/-- Table where two distinct codes carry the same catalog name (the
catalog is deduplicated by code only, so this is a legal table). -/
def dfC4 : List Row :=
  [⟨"META", "X", "META|X", some "570", some "Sikuani", 3⟩,
   ⟨"META", "X", "META|X", some "571", some "Sikuani", 4⟩]

/-- C4 counterexample: code 570's catalog name is Sikuani, yet
filtering by the code keeps one row while filtering by the name keeps
both rows — the row sets are not identical. -/
theorem C4_counterexample :
    filterDataset dfC4 (some ["570"]) none none
      = [⟨"META", "X", "META|X", some "570", some "Sikuani", 3⟩]
    ∧ filterDataset dfC4 (some ["Sikuani"]) none none = dfC4
    ∧ filterDataset dfC4 (some ["570"]) none none
      ≠ filterDataset dfC4 (some ["Sikuani"]) none none :=
  ⟨rfl, rfl, by decide⟩

/-- C4 amended: filtering by a code `c` and by a name `n` return
identical row sets provided the table relates them bijectively (a row's
code matches `c` exactly when its name matches `n`) and there is no
cross-namespace collision (no row's stringified code matches `n`, and
no row's stringified name matches `c`), all case-insensitively. -/
theorem C4_code_name_filter (df : List Row) (c n : String)
    (h1 : ∀ r ∈ df,
      (strUpper (pdStr r.codEtnia) = strUpper c
        ↔ strUpper (pdStr r.pueblo) = strUpper n))
    (h2 : ∀ r ∈ df, strUpper (pdStr r.codEtnia) ≠ strUpper n)
    (h3 : ∀ r ∈ df, strUpper (pdStr r.pueblo) ≠ strUpper c) :
    filterDataset df (some [c]) none none
      = filterDataset df (some [n]) none none := by
  rw [filterDataset, filterDataset]
  apply List.filter_congr
  intro r hr
  have hiff := h1 r hr
  have h2r := h2 r hr
  have h3r := h3 r hr
  simp only [rowMatchesPueblos, List.map_cons, List.map_nil,
    Bool.and_true, contains_singleton]
  rw [Bool.eq_iff_iff]
  simp only [Bool.or_eq_true, beq_iff_eq]
  constructor
  · rintro (hA | hB)
    · exact Or.inr (hiff.mp hA)
    · exact absurd hB h3r
  · rintro (hA | hB)
    · exact absurd hA h2r
    · exact Or.inl (hiff.mpr hB)

/-- One-row table where code 570 and name Sikuani identify the same
rows with no collisions. -/
def dfC4w : List Row :=
  [⟨"META", "X", "META|X", some "570", some "Sikuani", 3⟩]

/-- C4 witness: the amended theorem applied to a concrete table. -/
theorem C4_code_name_filter_witness :
    filterDataset dfC4w (some ["570"]) none none
      = filterDataset dfC4w (some ["Sikuani"]) none none :=
  C4_code_name_filter dfC4w "570" "Sikuani" (by decide) (by decide)
    (by decide)

/-! ## Claim C5 — municipality-key construction and round trip -/

/-- Primary sheet whose department cell carries surrounding
whitespace. -/
def baseC5 : Sheet :=
  ⟨["DEPARTAMENTO", "MUNICIPIO", "PA11_COD_ETNIA", "POBLACION"],
   [[.s " META ", .s "Puerto Lopez (META)", .i 570, .i 100]]⟩

/-- C5 counterexample: `KeyMpio` is built from the *stripped* stringified
department while the stored Departamento column keeps its whitespace, so
on this row the key differs from `department + "|" + municipality_clean`
and splitting the key on the first bar does not recover the stored
department. -/
theorem C5_counterexample :
    buildDataset baseC5 none = Except.ok
      [⟨.s " META ", "Puerto Lopez", "META|Puerto Lopez", .i 570,
        .empty, 100⟩]
    ∧ ("META|Puerto Lopez" : String)
      ≠ pdStrCell (.s " META ") ++ "|" ++ "Puerto Lopez"
    ∧ splitFirstBar "META|Puerto Lopez" ≠ (" META ", "Puerto Lopez") :=
  ⟨rfl, by decide, by decide⟩

/-- C5 amended: for every built row, `KeyMpio` equals the *stripped*
stringified department joined to the cleaned municipality by a bar, and
splitting the key on the first bar recovers exactly
(stripped department, cleaned municipality) whenever the stripped
department contains no bar itself. -/
theorem C5_key_roundtrip (base : Sheet) (cat : Option Sheet)
    (rows : List BuiltRow) (h : buildDataset base cat = Except.ok rows)
    (r : BuiltRow) (hr : r ∈ rows) :
    r.keyMpio
      = trimChars (pdStrCell r.departamento) ++ "|" ++ r.municipioLimpio
    ∧ ('|' ∉ (trimChars (pdStrCell r.departamento)).data →
        splitFirstBar r.keyMpio
          = (trimChars (pdStrCell r.departamento),
             r.municipioLimpio)) := by
  obtain ⟨dc, mc, cc, pc, hres, hinf, hrows⟩ :=
    buildDataset_ok base cat rows h
  subst hrows
  obtain ⟨row, hrow, hr⟩ := List.mem_map.mp hr
  subst hr
  exact ⟨rfl, fun hbar => splitFirstBar_append _ _ hbar⟩

/-- Well-formed primary sheet for the C5 witness. -/
def baseC5w : Sheet :=
  ⟨["DEPARTAMENTO", "MUNICIPIO", "PA11_COD_ETNIA", "POBLACION"],
   [[.s "META", .s "Puerto Lopez (META)", .i 570, .i 100]]⟩

/-- The row built from `baseC5w`. -/
def rC5w : BuiltRow :=
  ⟨.s "META", "Puerto Lopez", "META|Puerto Lopez", .i 570, .empty, 100⟩

/-- C5 witness: the amended theorem applied to a concrete build. -/
theorem C5_key_roundtrip_witness :
    rC5w.keyMpio
      = trimChars (pdStrCell rC5w.departamento) ++ "|"
        ++ rC5w.municipioLimpio
    ∧ splitFirstBar rC5w.keyMpio
      = (trimChars (pdStrCell rC5w.departamento),
         rC5w.municipioLimpio) := by
  have h := C5_key_roundtrip baseC5w none [rC5w] (by rfl) rC5w (by decide)
  exact ⟨h.1, h.2 (by decide)⟩

/-! ## Claim C6 — population coercion -/

/-- Primary sheet with a negative raw population value. -/
def baseC6 : Sheet :=
  ⟨["DEPARTAMENTO", "MUNICIPIO", "PA11_COD_ETNIA", "POBLACION"],
   [[.s "META", .s "X", .i 570, .s "-5"]]⟩

/-- Primary sheet whose population cell uses scientific notation. -/
def baseC6exp : Sheet :=
  ⟨["DEPARTAMENTO", "MUNICIPIO", "PA11_COD_ETNIA", "POBLACION"],
   [[.s "META", .s "X", .i 570, .s "-1e3"]]⟩

/-- Primary sheet whose population cell is the string "inf". -/
def baseC6inf : Sheet :=
  ⟨["DEPARTAMENTO", "MUNICIPIO", "PA11_COD_ETNIA", "POBLACION"],
   [[.s "META", .s "X", .i 570, .s "inf"]]⟩

/-- C6 counterexample: `pd.to_numeric` keeps negative values and the
build never clamps, so a raw population "-5" yields a row with a
negative `population_2018`; the same holds through scientific notation
("-1e3" coerces to -1000); and the coercion is not error-free either —
a raw "inf" parses to infinity, on which `astype(int)` raises, aborting
the build. -/
theorem C6_counterexample :
    (buildDataset baseC6 none = Except.ok
       [⟨.s "META", "X", "META|X", .i 570, .empty, -5⟩]
     ∧ ¬(0 ≤ (-5 : Int)))
    ∧ buildDataset baseC6exp none = Except.ok
        [⟨.s "META", "X", "META|X", .i 570, .empty, -1000⟩]
    ∧ buildDataset baseC6inf none
        = Except.error BuildError.nonFiniteCast :=
  ⟨⟨rfl, by decide⟩, rfl, rfl⟩

/-- C6 amended: the resolved population column is coerced cell-wise —
finite numeric values (decimal or scientific notation) pass through
truncated toward zero, parse failures and missing values resolve to 0,
and an infinite value aborts the whole build with the `astype(int)`
non-finite `ValueError` — so whenever the build succeeds, every built
row's population is the coercion of its population cell, and it is
non-negative whenever every coerced population cell of the sheet is
non-negative. -/
theorem C6_population_coercion (base : Sheet) (cat : Option Sheet)
    (rows : List BuiltRow) (h : buildDataset base cat = Except.ok rows)
    (pc : String)
    (hpc : guessColumn (dropEmptyRows base).headers popKeywords none
      = some pc)
    (hcells : ∀ row ∈ (dropEmptyRows base).rows,
      0 ≤ pdNumTrunc (popCellValue
        (getCell (dropEmptyRows base).headers row pc)))
    (r : BuiltRow) (hr : r ∈ rows) : 0 ≤ r.poblacion2018 := by
  obtain ⟨dc, mc, cc, pc2, hres, hinf, hrows⟩ :=
    buildDataset_ok base cat rows h
  obtain ⟨hg1, hg2, hg3, hg4⟩ :=
    resolveCols_eq_some (dropEmptyRows base).headers dc mc cc pc2 hres
  have hpc2 : pc2 = pc := by
    have := hg4.symm.trans hpc
    injection this
  subst hpc2
  subst hrows
  obtain ⟨row, hrow, hr⟩ := List.mem_map.mp hr
  subst hr
  exact hcells row hrow

/-- Primary sheet whose population cell is the decimal string "12.9". -/
def baseC6w : Sheet :=
  ⟨["DEPARTAMENTO", "MUNICIPIO", "PA11_COD_ETNIA", "POBLACION"],
   [[.s "META", .s "X", .i 570, .s "12.9"]]⟩

/-- The row built from `baseC6w` (12.9 truncates toward zero to 12). -/
def rC6w : BuiltRow := ⟨.s "META", "X", "META|X", .i 570, .empty, 12⟩

/-- C6 witness: the amended theorem applied to a concrete build. -/
theorem C6_population_coercion_witness : 0 ≤ rC6w.poblacion2018 :=
  C6_population_coercion baseC6w none [rC6w] (by rfl) "POBLACION"
    (by rfl) (by decide) rC6w (by decide)

/-! ## Claim C10 — null people names in the diversity computation -/

theorem countP_fst_none_pairs (keys : List (Option String))
    (f : Option String → Int) :
    ((keys.map (fun p => (p, f p))).countP
      (fun pc => decide (pc.1 = none)))
      = keys.countP (fun x => decide (x = none)) := by
  rw [List.countP_map]; rfl

/-- The people series of a group holds the null-name sub-group exactly
once when the group has a null-name row, and not at all otherwise. -/
theorem subgroupSeries_null_count (g : List Row) :
    ((subgroupSeries g).filter
      (fun pc => decide (pc.1 = none))).length
      = (if ∃ r ∈ g, r.pueblo = none then 1 else 0) := by
  rw [← List.countP_eq_length_filter, subgroupSeries]
  rw [(sortBy_perm _ _).countP_eq, countP_fst_none_pairs,
    (sortBy_perm _ _).countP_eq,
    countP_eq_of_nodup _ (nodup_dedupFirst _) none]
  by_cases hex : ∃ r ∈ g, r.pueblo = none
  · obtain ⟨r, hr, hp⟩ := hex
    have hmem : (none : Option String)
        ∈ dedupFirst (g.map (fun r => r.pueblo)) :=
      (mem_dedupFirst _ _).mpr (List.mem_map.mpr ⟨r, hr, hp⟩)
    rw [if_pos hmem, if_pos ⟨r, hr, hp⟩]
  · have hmem : (none : Option String)
        ∉ dedupFirst (g.map (fun r => r.pueblo)) := by
      intro hmem
      obtain ⟨r, hr, hp⟩ :=
        List.mem_map.mp ((mem_dedupFirst _ _).mp hmem)
      exact hex ⟨r, hr, hp⟩
    rw [if_neg hmem, if_neg hex]

/-- The null-name entry of the people series carries the summed
population of exactly the null-name rows. -/
theorem subgroupSeries_null_value (g : List Row)
    (pc : Option String × Int) (hpc : pc ∈ subgroupSeries g)
    (hnull : pc.1 = none) :
    pc.2 = ((g.filter (fun r => decide (r.pueblo = none))).map
      (fun r => r.poblacion2018)).sum := by
  rw [subgroupSeries, (sortBy_perm _ _).mem_iff] at hpc
  obtain ⟨p, hp, hpc⟩ := List.mem_map.mp hpc
  subst hpc
  have hpn : p = none := hnull
  subst hpn
  rfl

/-- C10 as amended: every municipality indicator record comes from a
nonempty group of table rows in which all null-name rows are merged
into a single sub-group of the people series (`groupby` with
`dropna=False`): the null sub-group occurs exactly once in the series
(when a null-name row exists), carries the summed population of the
null-name rows, appears in the breakdown string like any other
sub-group, and is counted in `num_pueblos` exactly when that sum is
positive. At global aggregation the same grouping feeds the shares, but
the reported distinct-group count is `nunique` of the code column (see
the counterexample). -/
theorem C10_null_name_group (log : ℚ → ℚ) (df : List Row)
    (rec : MuniRecord) (h : rec ∈ computeIndicadoresMunicipio log df) :
    ∃ g : List Row, g ≠ [] ∧ (∀ r ∈ g, r ∈ df)
    ∧ rec.numPueblos = ((subgroupSeries g).filter
        (fun pc => decide (0 < pc.2))).length
    ∧ rec.pueblosYPoblacion = renderSeries (subgroupSeries g)
    ∧ ((subgroupSeries g).filter
        (fun pc => decide (pc.1 = none))).length
      = (if ∃ r ∈ g, r.pueblo = none then 1 else 0)
    ∧ (∀ pc ∈ subgroupSeries g, pc.1 = none →
        pc.2 = ((g.filter (fun r => decide (r.pueblo = none))).map
          (fun r => r.poblacion2018)).sum) := by
  rw [computeIndicadoresMunicipio] at h
  obtain ⟨k, hk, hrec⟩ := List.mem_map.mp h
  subst hrec
  exact ⟨groupRows df k, groupRows_ne_nil df k hk,
    fun r hr => (List.mem_filter.mp hr).1, rfl, rfl,
    subgroupSeries_null_count _,
    fun pc hpc hnull => subgroupSeries_null_value _ pc hpc hnull⟩

/-- Two rows with distinct codes, both with a null people name and zero
population. -/
def dfC10 : List Row :=
  [⟨"META", "X", "META|X", some "1", none, 0⟩,
   ⟨"META", "X", "META|X", some "2", none, 0⟩]

/-- C10 counterexample: at global aggregation the two null-name rows do
form a single sub-group of the people series (with summed population 0,
so zero positive-population sub-groups exist), yet `aggregate` reports
a distinct-group count of 2 — it counts distinct people codes, so the
null sub-group does not contribute "exactly one group" to that count. -/
theorem C10_counterexample :
    globalPuebloSeries dfC10 = [(none, 0)]
    ∧ ((globalPuebloSeries dfC10).filter
        (fun pc => decide (0 < pc.2))).length = 0
    ∧ aggregate dfC10 none none none
      = Except.ok ⟨0, 2, none, none, none⟩ :=
  ⟨rfl, rfl, rfl⟩

/-- One-row table with a null people name. -/
def dfC10w : List Row := [⟨"META", "X", "META|X", some "1", none, 0⟩]

/-- The municipality record computed from `dfC10w` (the null sub-group
renders as "nan" in the breakdown). -/
def recC10w : MuniRecord := ⟨"META", "X", 0, 0, "nan:0", none, none, none⟩

/-- C10 witness: the amended theorem applied to a concrete table with a
null people name. -/
theorem C10_null_name_group_witness :
    ∃ g : List Row, g ≠ [] ∧ (∀ r ∈ g, r ∈ dfC10w)
    ∧ recC10w.numPueblos = ((subgroupSeries g).filter
        (fun pc => decide (0 < pc.2))).length
    ∧ recC10w.pueblosYPoblacion = renderSeries (subgroupSeries g)
    ∧ ((subgroupSeries g).filter
        (fun pc => decide (pc.1 = none))).length
      = (if ∃ r ∈ g, r.pueblo = none then 1 else 0)
    ∧ (∀ pc ∈ subgroupSeries g, pc.1 = none →
        pc.2 = ((g.filter (fun r => decide (r.pueblo = none))).map
          (fun r => r.poblacion2018)).sum) :=
  C10_null_name_group (fun q => q) dfC10w recC10w (by decide)

end Visor
